import Mathlib

/-!
Verification of the core algorithms of the `autos` repository:
the deterministic synthetic-VIN attribute generator
(`src/data/scripts/generate_vin_data.py`) and the body-class
classifier (`src/data/scripts/body_class_classifier.py`).

Python machine arithmetic is embedded with exact arithmetic:
integers are `ℤ`/`ℕ` with explicit `% 2^32` where the source masks,
and float draws from the linear-congruential generator are the exact
dyadic rationals `state / 2^32` in `ℚ`.  Python `int()` on a
non-negative rational is the floor; on a negative one, the ceiling
(truncation toward zero).  Strings are Lean `String`s; where a length
argument is needed the character list `String.data` is used directly.
-/

unseal Rat.add Rat.mul Rat.inv Rat.sub

namespace Autos

/-- Python `int()` applied to a rational: truncation toward zero. -/
def pyInt (x : ℚ) : ℤ := if 0 ≤ x then ⌊x⌋ else ⌈x⌉

/-- The LCG state update from `VINGenerator._seeded_random`:
`state = (state * 1664525 + 1013904223) % 4294967296`. -/
def lcgNext (s : ℕ) : ℕ := (s * 1664525 + 1013904223) % 4294967296

/-- `VINGenerator._seeded_random`: advance the state and return
`state / 4294967296` together with the new state. -/
def seededRandom (s : ℕ) : ℚ × ℕ :=
  ((lcgNext s : ℚ) / 4294967296, lcgNext s)

/-- Decimal digit character (`'0'` has code 48). -/
def digitChar (d : ℕ) : Char := Char.ofNat (48 + d)

/-- Little-endian decimal digit characters of `n`, with structural
fuel so that the kernel can evaluate it (`fuel ≥ n` suffices). -/
def natDigitsAux : ℕ → ℕ → List Char
  | 0, _ => []
  | _ + 1, 0 => []
  | fuel + 1, n + 1 => digitChar ((n + 1) % 10) :: natDigitsAux fuel ((n + 1) / 10)

/-- Python `str(n)` for a natural number: its decimal representation. -/
def natToStr (n : ℕ) : String :=
  if n = 0 then "0" else ⟨(natDigitsAux n n).reverse⟩

/-- Python `s.zfill(w)`: left-pad with `'0'` up to width `w`. -/
def zfill (w : ℕ) (s : String) : String :=
  (⟨List.replicate (w - s.length) '0'⟩ : String) ++ s

/-- Plant-letter pool used by `generate_pre_1981_vin`. -/
def plants : List Char := ['R', 'F', 'T', 'D', 'A']

/-- `VINGenerator.generate_pre_1981_vin`: manufacturer-specific short
format `yearDigit ++ plant ++ "01C" ++ serial`; consumes one draw for
the plant letter. -/
def generate_pre_1981_vin (manufacturer : String) (year : ℤ) (index : ℕ) (s : ℕ) :
    String × ℕ :=
  let year_code := (natToStr year.natAbs).takeRight 1
  let (r, s') := seededRandom s
  let plant := plants.getD (pyInt (r * (plants.length : ℚ))).toNat 'X'
  let serial := zfill 6 (natToStr (100000 + index))
  (year_code ++ String.singleton plant ++ "01C" ++ serial, s')

/-- The 30-symbol year-code alphabet of `generate_post_1981_vin`. -/
def year_codes : List Char :=
  ['A', 'B', 'C', 'D', 'E', 'F', 'G', 'H', 'J', 'K', 'L', 'M', 'N', 'P',
   'R', 'S', 'T', 'V', 'W', 'X', 'Y',
   '1', '2', '3', '4', '5', '6', '7', '8', '9']

/-- Year-code character of the post-1981 VIN: the alphabet indexed at
`(year - 1980) % len(year_codes)` (Python `%`, i.e. `Int.emod`). -/
def post_1981_year_code (year : ℤ) : Char :=
  year_codes.getD ((year - 1980).emod (year_codes.length : ℤ)).toNat 'X'

/-- Python `manufacturer[:2].upper()`. -/
def mfrCode2 (manufacturer : String) : String :=
  ⟨(manufacturer.data.take 2).map Char.toUpper⟩

/-- `VINGenerator.generate_post_1981_vin`: ISO-style code
`"1" ++ mfr2 ++ "BP40E9" ++ yearCode ++ "F" ++ serial`;
consumes no draw. -/
def generate_post_1981_vin (manufacturer : String) (year : ℤ) (index : ℕ) : String :=
  let country := "1"
  let mfr_code := mfrCode2 manufacturer
  let year_code := String.singleton (post_1981_year_code year)
  let plant := "F"
  let serial := zfill 6 (natToStr (100000 + index))
  country ++ mfr_code ++ "BP40E9" ++ year_code ++ plant ++ serial

/-- A condition tier: numeric rating plus description. -/
structure Condition where
  rating : ℕ
  description : String
deriving DecidableEq, Repr

/-- `VINGenerator.generate_condition`: one cumulative-probability roll
over five tiers. -/
def generate_condition (s : ℕ) : Condition × ℕ :=
  let (roll, s') := seededRandom s
  if roll < 5 / 100 then (⟨5, "Concours"⟩, s')
  else if roll < 20 / 100 then (⟨4, "Excellent"⟩, s')
  else if roll < 55 / 100 then (⟨3, "Good"⟩, s')
  else if roll < 85 / 100 then (⟨2, "Fair"⟩, s')
  else (⟨1, "Project"⟩, s')

/-- `VINGenerator.generate_mileage`: two draws, an age-scaled base and
a multiplier-band roll. -/
def generate_mileage (year : ℤ) (s : ℕ) : ℤ × ℕ :=
  let age : ℤ := 2025 - year
  let (r1, s1) := seededRandom s
  let avg_miles_per_year : ℚ := 5000 + r1 * 7000
  let base_mileage : ℚ := (age : ℚ) * avg_miles_per_year
  let (roll, s2) := seededRandom s1
  if roll < 20 / 100 then (pyInt (base_mileage * (3 / 10)), s2)
  else if roll < 70 / 100 then (pyInt (base_mileage * (8 / 10)), s2)
  else if roll < 95 / 100 then (pyInt (base_mileage * (15 / 10)), s2)
  else (pyInt (base_mileage * (25 / 10)), s2)

/-- The fixed state-weight table of `generate_state`. -/
def stateWeights : List (String × ℚ) :=
  [("CA", 15), ("TX", 8), ("FL", 7), ("AZ", 5),
   ("OH", 4), ("MI", 4), ("NY", 3), ("PA", 3)]

/-- The cumulative-subtraction loop of `generate_state`: subtract each
weight in turn and return the first entry driving the roll to `≤ 0`;
the table exhausted, return the source's unreachable default. -/
def pickState : ℚ → List (String × ℚ) → String
  | _, [] => "CA"
  | roll, (code, w) :: rest => if roll - w ≤ 0 then code else pickState (roll - w) rest

/-- `VINGenerator.generate_state`: one draw, scaled by the total
weight, consumed by cumulative subtraction. -/
def generate_state (s : ℕ) : String × ℕ :=
  let total_weight : ℚ := (stateWeights.map Prod.snd).sum
  let (r, s') := seededRandom s
  (pickState (r * total_weight) stateWeights, s')

/-- Pre-1970 palette of `generate_color`. -/
def pre_1970_colors : List String :=
  ["Wimbledon White", "Candy Apple Red", "Springtime Yellow",
   "Arcadian Blue", "Ivy Gold", "Silver Smoke Gray"]

/-- Post-1970 palette of `generate_color`. -/
def post_1970_colors : List String :=
  ["Bright Red", "Black", "White", "Silver Metallic",
   "Dark Blue Metallic", "Green Metallic"]

/-- `VINGenerator.generate_color`: era-conditioned palette, one draw. -/
def generate_color (year : ℤ) (s : ℕ) : String × ℕ :=
  let colors := if year < 1970 then pre_1970_colors else post_1970_colors
  let (r, s') := seededRandom s
  (colors.getD (pyInt (r * (colors.length : ℚ))).toNat "", s')

/-- The fixed option catalog of `generate_options`. -/
def all_options : List String :=
  ["Power Steering", "Power Disc Brakes", "Air Conditioning",
   "GT Equipment Group", "Interior Decor Group", "Rally Pac Gauges",
   "AM/FM Radio", "Tinted Glass"]

/-- The selection loop of `generate_options`: each iteration draws one
value, indexes the catalog, and appends the option unless already
selected. -/
def optionsLoop : ℕ → List String → ℕ → List String × ℕ
  | 0, acc, s => (acc, s)
  | k + 1, acc, s =>
    let (r, s') := seededRandom s
    let o := all_options.getD (pyInt (r * (all_options.length : ℚ))).toNat ""
    optionsLoop k (if acc.contains o then acc else acc ++ [o]) s'

/-- `VINGenerator.generate_options`: one draw fixes the option count
(scaled by the condition rating), then that many selection draws. -/
def generate_options (condition_rating : ℕ) (s : ℕ) : List String × ℕ :=
  let (r, s') := seededRandom s
  let option_count := (pyInt ((condition_rating : ℚ) * r * 3)).toNat
  optionsLoop (min option_count all_options.length) [] s'

/-- The `base_values` table of `calculate_value`. -/
def base_value : ℕ → ℚ
  | 5 => 100000
  | 4 => 65000
  | 3 => 40000
  | 2 => 25000
  | 1 => 15000
  | _ => 0

/-- `VINGenerator.calculate_value`: condition base, mileage bracket
multiplier, option bonus, then one final variance draw in `[0.9, 1.1)`. -/
def calculate_value (condition_rating : ℕ) (mileage : ℤ) (options : List String)
    (s : ℕ) : ℤ × ℕ :=
  let v0 := base_value condition_rating
  let v1 := if mileage < 50000 then v0 * (12 / 10)
            else if mileage > 150000 then v0 * (8 / 10)
            else v0
  let v2 := v1 + (options.length : ℚ) * 2000
  let (r, s') := seededRandom s
  (pyInt (v2 * (9 / 10 + r * (2 / 10))), s')

/-- One vehicle record as consumed by `generate_instance`. -/
structure VehicleData where
  manufacturer : String
  model : String
  year : ℤ
  body_class : String
  vehicle_id : String
deriving DecidableEq, Repr

/-- One generated synthetic record.  `last_service_date` is the day
number `now - days_ago` where `now` is the generation day (the source
formats `datetime.now() - timedelta(days=days_ago)` as a date string). -/
structure SyntheticInstance where
  vin : String
  manufacturer : String
  model : String
  year : ℤ
  body_class : String
  vehicle_id : String
  condition_rating : ℕ
  condition_description : String
  mileage : ℤ
  mileage_verified : Bool
  registered_state : String
  registration_status : String
  title_status : String
  exterior_color : String
  factory_options : List String
  estimated_value : ℤ
  matching_numbers : Bool
  last_service_date : ℤ
deriving DecidableEq, Repr

/-!
`VINGenerator.generate_instance` (source lines 191-235) threads the
LCG state through the steps below in source order.  Each step is a
named definition (rather than a `let` in one body) so that statements
about single fields reduce without expanding the whole chain; the
sequencing is exactly that of the source. -/

/-- Line 200-202: the VIN, consuming one draw only in the pre-1981
branch. -/
def instVin (s : ℕ) (v : VehicleData) (index : ℕ) : String × ℕ :=
  if v.year ≤ 1980 then generate_pre_1981_vin v.manufacturer v.year index s
  else (generate_post_1981_vin v.manufacturer v.year index, s)

/-- Line 205: `condition = self.generate_condition()`. -/
def instCondition (s : ℕ) (v : VehicleData) (index : ℕ) : Condition × ℕ :=
  generate_condition (instVin s v index).2

/-- Line 206: `mileage = self.generate_mileage(year)`. -/
def instMileage (s : ℕ) (v : VehicleData) (index : ℕ) : ℤ × ℕ :=
  generate_mileage v.year (instCondition s v index).2

/-- Line 207: `state = self.generate_state()`. -/
def instState (s : ℕ) (v : VehicleData) (index : ℕ) : String × ℕ :=
  generate_state (instMileage s v index).2

/-- Line 208: `color = self.generate_color(year)`. -/
def instColor (s : ℕ) (v : VehicleData) (index : ℕ) : String × ℕ :=
  generate_color v.year (instState s v index).2

/-- Line 209: `options = self.generate_options(condition['rating'])`. -/
def instOptions (s : ℕ) (v : VehicleData) (index : ℕ) : List String × ℕ :=
  generate_options (instCondition s v index).1.rating (instColor s v index).2

/-- Line 210: `value = self.calculate_value(...)`. -/
def instValue (s : ℕ) (v : VehicleData) (index : ℕ) : ℤ × ℕ :=
  calculate_value (instCondition s v index).1.rating (instMileage s v index).1
    (instOptions s v index).1 (instOptions s v index).2

/-- Line 213: the service-date offset draw, taken before the record
literal is built. -/
def instDays (s : ℕ) (v : VehicleData) (index : ℕ) : ℚ × ℕ :=
  seededRandom (instValue s v index).2

/-- Line 226: the `mileage_verified` draw (first draw inside the
record literal). -/
def instMv (s : ℕ) (v : VehicleData) (index : ℕ) : ℚ × ℕ :=
  seededRandom (instDays s v index).2

/-- Line 228: the `registration_status` draw. -/
def instReg (s : ℕ) (v : VehicleData) (index : ℕ) : ℚ × ℕ :=
  seededRandom (instMv s v index).2

/-- Line 229: the `title_status` draw. -/
def instTitle (s : ℕ) (v : VehicleData) (index : ℕ) : ℚ × ℕ :=
  seededRandom (instReg s v index).2

/-- Line 233: the `matching_numbers` draw (last draw). -/
def instMatch (s : ℕ) (v : VehicleData) (index : ℕ) : ℚ × ℕ :=
  seededRandom (instTitle s v index).2

/-- `VINGenerator.generate_instance`: the assembled record plus the
final LCG state. -/
def generate_instance (s : ℕ) (v : VehicleData) (index : ℕ) (now : ℤ) :
    SyntheticInstance × ℕ :=
  ({ vin := (instVin s v index).1
     manufacturer := v.manufacturer
     model := v.model
     year := v.year
     body_class := v.body_class
     vehicle_id := v.vehicle_id
     condition_rating := (instCondition s v index).1.rating
     condition_description := (instCondition s v index).1.description
     mileage := (instMileage s v index).1
     mileage_verified := decide ((2 / 10 : ℚ) < (instMv s v index).1)
     registered_state := (instState s v index).1
     registration_status :=
       if (55 / 100 : ℚ) < (instReg s v index).1 then "Active" else "Historic"
     title_status :=
       if (1 / 10 : ℚ) < (instTitle s v index).1 then "Clean" else "Rebuilt"
     exterior_color := (instColor s v index).1
     factory_options := (instOptions s v index).1
     estimated_value := (instValue s v index).1
     matching_numbers := decide ((4 / 10 : ℚ) < (instMatch s v index).1)
     last_service_date := now - pyInt ((instDays s v index).1 * 180) },
   (instMatch s v index).2)

/-!
The specification asserts a different tail draw order: the four
boolean-flag draws first, the service-date offset draw last.  The
`spec...` steps below realise that order, for comparison with
`generate_instance`. -/

/-- Flag draw order asserted by the spec: `mileage_verified` drawn
straight after the value variance draw. -/
def specMv (s : ℕ) (v : VehicleData) (index : ℕ) : ℚ × ℕ :=
  seededRandom (instValue s v index).2

/-- Spec order: `registration_status` draw. -/
def specReg (s : ℕ) (v : VehicleData) (index : ℕ) : ℚ × ℕ :=
  seededRandom (specMv s v index).2

/-- Spec order: `title_status` draw. -/
def specTitle (s : ℕ) (v : VehicleData) (index : ℕ) : ℚ × ℕ :=
  seededRandom (specReg s v index).2

/-- Spec order: `matching_numbers` draw. -/
def specMatch (s : ℕ) (v : VehicleData) (index : ℕ) : ℚ × ℕ :=
  seededRandom (specTitle s v index).2

/-- Spec order: the service-date offset draw, taken last. -/
def specDays (s : ℕ) (v : VehicleData) (index : ℕ) : ℚ × ℕ :=
  seededRandom (specMatch s v index).2

/-- Variant of `generate_instance` whose tail draws follow the order
asserted by the specification (flags first, service-date offset
last).  It exists only to be compared with `generate_instance`. -/
def generate_instance_spec_draw_order (s : ℕ) (v : VehicleData) (index : ℕ)
    (now : ℤ) : SyntheticInstance × ℕ :=
  ({ vin := (instVin s v index).1
     manufacturer := v.manufacturer
     model := v.model
     year := v.year
     body_class := v.body_class
     vehicle_id := v.vehicle_id
     condition_rating := (instCondition s v index).1.rating
     condition_description := (instCondition s v index).1.description
     mileage := (instMileage s v index).1
     mileage_verified := decide ((2 / 10 : ℚ) < (specMv s v index).1)
     registered_state := (instState s v index).1
     registration_status :=
       if (55 / 100 : ℚ) < (specReg s v index).1 then "Active" else "Historic"
     title_status :=
       if (1 / 10 : ℚ) < (specTitle s v index).1 then "Clean" else "Rebuilt"
     exterior_color := (instColor s v index).1
     factory_options := (instOptions s v index).1
     estimated_value := (instValue s v index).1
     matching_numbers := decide ((4 / 10 : ℚ) < (specMatch s v index).1)
     last_service_date := now - pyInt ((specDays s v index).1 * 180) },
   (specDays s v index).2)

/-- Iterated LCG state update. -/
def lcgIterate (s : ℕ) : ℕ → ℕ
  | 0 => s
  | k + 1 => lcgNext (lcgIterate s k)

/-- Value of the k-th draw (k ≥ 1) issued from state `s`. -/
def drawVal (s : ℕ) (k : ℕ) : ℚ := (lcgIterate s k : ℚ) / 4294967296

/-- The LCG state after the VIN, condition, mileage, state, color,
options and estimated-value draws of `generate_instance`, i.e. just
before the service-date offset draw. -/
def preFlagsState (s : ℕ) (v : VehicleData) (index : ℕ) : ℕ :=
  (instValue s v index).2

/-- Every draw value is non-negative. -/
theorem seededRandom_val_nonneg (s : ℕ) : 0 ≤ (seededRandom s).1 :=
  div_nonneg (by positivity) (by norm_num)

/-- Every draw value is below one, because the updated state is a
residue mod `2^32`. -/
theorem seededRandom_val_lt_one (s : ℕ) : (seededRandom s).1 < 1 := by
  have h : lcgNext s < 4294967296 := Nat.mod_lt _ (by norm_num)
  rw [seededRandom, div_lt_one (by norm_num)]
  exact_mod_cast h

/-- C5: for every generator state `s`, one seeded draw updates the
state to `(s * 1664525 + 1013904223) mod 2^32` and returns the new
state divided by `2^32`, a value in `[0, 1)`. -/
theorem seededRandom_lcg_spec (s : ℕ) :
    (seededRandom s).2 = (s * 1664525 + 1013904223) % 2 ^ 32 ∧
    (seededRandom s).1 = ((seededRandom s).2 : ℚ) / 2 ^ 32 ∧
    0 ≤ (seededRandom s).1 ∧ (seededRandom s).1 < 1 :=
  ⟨by norm_num [seededRandom, lcgNext], by norm_num [seededRandom],
   seededRandom_val_nonneg s, seededRandom_val_lt_one s⟩

/-- C1 counterexample: the record returned by `generate_instance` is
not independent of the generation time.  Two generators with the same
seed, applied to the same record and index but invoked one day apart,
return records that differ (in `last_service_date`), so the records
are not byte-identical. -/
theorem generate_instance_not_time_invariant :
    (generate_instance 42 ⟨"Ford", "Mustang", 1990, "Sports Car", "ford-mustang-1990"⟩ 0 0).1
      ≠ (generate_instance 42 ⟨"Ford", "Mustang", 1990, "Sports Car", "ford-mustang-1990"⟩ 0 1).1 := by
  decide

/-- C1 amended: two `generate_instance` calls with the same seed,
record and index agree on every field except `last_service_date`,
whose values differ by exactly the difference of the generation days
(hence equal generation days give byte-identical records); the final
LCG states also agree. -/
theorem generate_instance_deterministic_up_to_service_date (s : ℕ) (v : VehicleData)
    (index : ℕ) (n₁ n₂ : ℤ) :
    (generate_instance s v index n₁).1.vin = (generate_instance s v index n₂).1.vin ∧
    (generate_instance s v index n₁).1.manufacturer
      = (generate_instance s v index n₂).1.manufacturer ∧
    (generate_instance s v index n₁).1.model = (generate_instance s v index n₂).1.model ∧
    (generate_instance s v index n₁).1.year = (generate_instance s v index n₂).1.year ∧
    (generate_instance s v index n₁).1.body_class
      = (generate_instance s v index n₂).1.body_class ∧
    (generate_instance s v index n₁).1.vehicle_id
      = (generate_instance s v index n₂).1.vehicle_id ∧
    (generate_instance s v index n₁).1.condition_rating
      = (generate_instance s v index n₂).1.condition_rating ∧
    (generate_instance s v index n₁).1.condition_description
      = (generate_instance s v index n₂).1.condition_description ∧
    (generate_instance s v index n₁).1.mileage
      = (generate_instance s v index n₂).1.mileage ∧
    (generate_instance s v index n₁).1.mileage_verified
      = (generate_instance s v index n₂).1.mileage_verified ∧
    (generate_instance s v index n₁).1.registered_state
      = (generate_instance s v index n₂).1.registered_state ∧
    (generate_instance s v index n₁).1.registration_status
      = (generate_instance s v index n₂).1.registration_status ∧
    (generate_instance s v index n₁).1.title_status
      = (generate_instance s v index n₂).1.title_status ∧
    (generate_instance s v index n₁).1.exterior_color
      = (generate_instance s v index n₂).1.exterior_color ∧
    (generate_instance s v index n₁).1.factory_options
      = (generate_instance s v index n₂).1.factory_options ∧
    (generate_instance s v index n₁).1.estimated_value
      = (generate_instance s v index n₂).1.estimated_value ∧
    (generate_instance s v index n₁).1.matching_numbers
      = (generate_instance s v index n₂).1.matching_numbers ∧
    (generate_instance s v index n₁).1.last_service_date
        - (generate_instance s v index n₂).1.last_service_date = n₁ - n₂ ∧
    (generate_instance s v index n₁).2 = (generate_instance s v index n₂).2 := by
  refine ⟨rfl, rfl, rfl, rfl, rfl, rfl, rfl, rfl, rfl, rfl, rfl, rfl, rfl, rfl, rfl,
    rfl, rfl, ?_, rfl⟩
  show n₁ - _ - (n₂ - _) = n₁ - n₂
  exact sub_sub_sub_cancel_right n₁ n₂ _

/-- C4 counterexample: consuming the tail draws in the order the
specification states (boolean flags before the service-date offset)
changes the generated record: at seed 42 the code's record differs
from the spec-ordered record. -/
theorem generate_instance_draw_order_differs :
    (generate_instance 42 ⟨"Ford", "Mustang", 1990, "Sports Car", "ford-mustang-1990"⟩ 0 0).1
      ≠ (generate_instance_spec_draw_order 42
          ⟨"Ford", "Mustang", 1990, "Sports Car", "ford-mustang-1990"⟩ 0 0).1 := by
  decide

/-- C4 amended: after the estimated-value variance draw the seeded
sequence is consumed as follows: the service-date offset draw comes
first, then the four boolean-flag draws in order mileage_verified,
registration_status, title_status, matching_numbers; the pre-1981 VIN
step itself consumes exactly one draw (the plant letter), so for
pre-1981 vehicles a VIN draw precedes the condition roll. -/
theorem generate_instance_tail_draw_order (s : ℕ) (v : VehicleData) (index : ℕ)
    (now : ℤ) :
    (generate_pre_1981_vin v.manufacturer v.year index s).2 = lcgIterate s 1 ∧
    (generate_instance s v index now).1.last_service_date
      = now - pyInt (drawVal (preFlagsState s v index) 1 * 180) ∧
    (generate_instance s v index now).1.mileage_verified
      = decide ((2 / 10 : ℚ) < drawVal (preFlagsState s v index) 2) ∧
    (generate_instance s v index now).1.registration_status
      = (if (55 / 100 : ℚ) < drawVal (preFlagsState s v index) 3
         then "Active" else "Historic") ∧
    (generate_instance s v index now).1.title_status
      = (if (1 / 10 : ℚ) < drawVal (preFlagsState s v index) 4
         then "Clean" else "Rebuilt") ∧
    (generate_instance s v index now).1.matching_numbers
      = decide ((4 / 10 : ℚ) < drawVal (preFlagsState s v index) 5) ∧
    (generate_instance s v index now).2 = lcgIterate (preFlagsState s v index) 5 :=
  ⟨rfl, rfl, rfl, rfl, rfl, rfl, rfl⟩

/-- The fuel-based decimal digit function agrees with `Nat.digits`
once the fuel covers the argument. -/
theorem natDigitsAux_eq {fuel n : ℕ} (h : n ≤ fuel) :
    natDigitsAux fuel n = (Nat.digits 10 n).map digitChar := by
  induction fuel generalizing n with
  | zero =>
    interval_cases n
    simp [natDigitsAux]
  | succ fuel ih =>
    cases n with
    | zero => simp [natDigitsAux]
    | succ m =>
      rw [natDigitsAux, Nat.digits_def' (by norm_num : (1:ℕ) < 10) (Nat.succ_pos m)]
      rw [ih (by omega : (m + 1) / 10 ≤ fuel)]
      simp

/-- Length of the decimal representation of a positive natural. -/
theorem natToStr_length {n : ℕ} (hn : 0 < n) :
    (natToStr n).length = Nat.log 10 n + 1 := by
  rw [natToStr, if_neg (Nat.pos_iff_ne_zero.mp hn)]
  show (natDigitsAux n n).reverse.length = _
  rw [natDigitsAux_eq le_rfl, List.length_reverse, List.length_map,
    Nat.digits_len 10 n (by norm_num) (Nat.pos_iff_ne_zero.mp hn)]

/-- Six-digit serial numbers render with six characters. -/
theorem natToStr_length_serial {m : ℕ} (h1 : 100000 ≤ m) (h2 : m < 1000000) :
    (natToStr m).length = 6 := by
  rw [natToStr_length (by omega)]
  have : Nat.log 10 m = 5 :=
    Nat.log_eq_of_pow_le_of_lt_pow (by norm_num; omega) (by norm_num; omega)
  omega

/-- Length of a zero-padded string. -/
theorem zfill_length (w : ℕ) (s : String) :
    (zfill w s).length = (w - s.length) + s.length := by
  rw [zfill, String.length_append]
  show (List.replicate (w - s.length) '0').length + s.length = _
  rw [List.length_replicate]

/-- C6 counterexample: the post-1981 year-code alphabet has 30
symbols, not 31, and for year 2011 the claimed index `(2011 - 1980)
mod 31 = 0` names character `'A'` while the code emits `'B'` (index
`31 mod 30 = 1`). -/
theorem year_code_alphabet_not_31 :
    year_codes.length ≠ 31 ∧
    post_1981_year_code 2011 ≠ year_codes.getD (((2011 - 1980 : ℤ)).emod 31).toNat 'X' :=
  ⟨by decide, by decide⟩

/-- C6 amended: the year-code alphabet has 30 symbols with epoch
1981, and for every year the post-1981 VIN's year-code character is
the alphabet entry at index `(year - 1980) mod 30`, placed between
the fixed infix and the plant letter. -/
theorem post_1981_year_code_alphabet_30 (m : String) (year : ℤ) (index : ℕ) :
    year_codes.length = 30 ∧
    post_1981_year_code year = year_codes.getD ((year - 1980).emod 30).toNat 'X' ∧
    generate_post_1981_vin m year index
      = "1" ++ mfrCode2 m ++ "BP40E9" ++ String.singleton (post_1981_year_code year)
        ++ "F" ++ zfill 6 (natToStr (100000 + index)) :=
  ⟨rfl, rfl, rfl⟩

/-- C7: in `generate_instance`, model year 1980 yields the pre-1981
short VIN (year digit, a plant letter from the pool, `"01C"`, and the
6-digit serial `100000 + index`), while model year 1981 yields the
post-1981 17-character VIN. -/
theorem generate_instance_vin_era_boundary (s : ℕ) (v : VehicleData) (index : ℕ)
    (now : ℤ) (hidx : index < 900000) :
    (v.year = 1980 →
      (generate_instance s v index now).1.vin
        = (generate_pre_1981_vin v.manufacturer v.year index s).1 ∧
      ∃ p ∈ plants, (generate_pre_1981_vin v.manufacturer v.year index s).1
        = "0" ++ String.singleton p ++ "01C" ++ zfill 6 (natToStr (100000 + index)) ∧
        (zfill 6 (natToStr (100000 + index))).length = 6) ∧
    (v.year = 1981 →
      (generate_instance s v index now).1.vin
        = generate_post_1981_vin v.manufacturer v.year index ∧
      (2 ≤ v.manufacturer.length →
        (generate_instance s v index now).1.vin.length = 17)) := by
  have hserial : (zfill 6 (natToStr (100000 + index))).length = 6 := by
    rw [zfill_length, natToStr_length_serial (by omega) (by omega)]
  constructor
  · intro h80
    have hvin : (generate_instance s v index now).1.vin
        = (generate_pre_1981_vin v.manufacturer v.year index s).1 := by
      show (instVin s v index).1 = _
      rw [instVin, if_pos (by rw [h80])]
    refine ⟨hvin, ?_⟩
    set r := (seededRandom s).1 with hr
    have hr0 : 0 ≤ r := seededRandom_val_nonneg s
    have hr1 : r < 1 := seededRandom_val_lt_one s
    have hlen : (plants.length : ℚ) = 5 := by norm_num [plants]
    have hi5 : (pyInt (r * (plants.length : ℚ))).toNat < 5 := by
      have hfl : pyInt (r * (plants.length : ℚ)) < 5 := by
        rw [pyInt, if_pos (mul_nonneg hr0 (by positivity))]
        refine Int.floor_lt.mpr ?_
        rw [hlen]
        push_cast
        nlinarith
      omega
    have hmem : ∀ i, i < 5 → plants.getD i 'X' ∈ plants := by decide
    refine ⟨plants.getD (pyInt (r * (plants.length : ℚ))).toNat 'X',
      hmem _ hi5, ?_, hserial⟩
    rw [generate_pre_1981_vin, h80]
    rfl
  · intro h81
    have hvin : (generate_instance s v index now).1.vin
        = generate_post_1981_vin v.manufacturer v.year index := by
      show (instVin s v index).1 = _
      rw [instVin, if_neg (by rw [h81]; norm_num)]
    refine ⟨hvin, fun h2 => ?_⟩
    rw [hvin, generate_post_1981_vin]
    show ((("1" ++ mfrCode2 v.manufacturer ++ "BP40E9"
      ++ String.singleton (post_1981_year_code v.year)) ++ "F")
      ++ zfill 6 (natToStr (100000 + index))).length = 17
    rw [String.length_append, String.length_append, String.length_append,
      String.length_append, String.length_append, hserial]
    have hm : (mfrCode2 v.manufacturer).length = 2 := by
      show ((v.manufacturer.data.take 2).map Char.toUpper).length = 2
      rw [List.length_map, List.length_take]
      have : v.manufacturer.data.length = v.manufacturer.length := rfl
      omega
    rw [hm]
    rfl

/-- Witness for `generate_instance_vin_era_boundary` at seed 42,
index 0, a 1980 Ford record, generation day 0. -/
theorem generate_instance_vin_era_boundary_witness :
    (0 : ℕ) < 900000 ∧
    (((⟨"Ford", "Mustang", 1980, "Sports Car", "id"⟩ : VehicleData).year = 1980 →
      (generate_instance 42 ⟨"Ford", "Mustang", 1980, "Sports Car", "id"⟩ 0 0).1.vin
        = (generate_pre_1981_vin
            (⟨"Ford", "Mustang", 1980, "Sports Car", "id"⟩ : VehicleData).manufacturer
            (⟨"Ford", "Mustang", 1980, "Sports Car", "id"⟩ : VehicleData).year 0 42).1 ∧
      ∃ p ∈ plants, (generate_pre_1981_vin
            (⟨"Ford", "Mustang", 1980, "Sports Car", "id"⟩ : VehicleData).manufacturer
            (⟨"Ford", "Mustang", 1980, "Sports Car", "id"⟩ : VehicleData).year 0 42).1
        = "0" ++ String.singleton p ++ "01C" ++ zfill 6 (natToStr (100000 + 0)) ∧
        (zfill 6 (natToStr (100000 + 0))).length = 6) ∧
    ((⟨"Ford", "Mustang", 1980, "Sports Car", "id"⟩ : VehicleData).year = 1981 →
      (generate_instance 42 ⟨"Ford", "Mustang", 1980, "Sports Car", "id"⟩ 0 0).1.vin
        = generate_post_1981_vin
            (⟨"Ford", "Mustang", 1980, "Sports Car", "id"⟩ : VehicleData).manufacturer
            (⟨"Ford", "Mustang", 1980, "Sports Car", "id"⟩ : VehicleData).year 0 ∧
      (2 ≤ (⟨"Ford", "Mustang", 1980, "Sports Car", "id"⟩ : VehicleData).manufacturer.length →
        (generate_instance 42 ⟨"Ford", "Mustang", 1980, "Sports Car", "id"⟩ 0 0).1.vin.length
          = 17))) :=
  ⟨by decide,
   generate_instance_vin_era_boundary 42 ⟨"Ford", "Mustang", 1980, "Sports Car", "id"⟩ 0 0
     (by decide)⟩

/-!
Embedding of `BodyClassClassifier`
(`src/data/scripts/body_class_classifier.py`).  The three rule
catalogs loaded at construction are modelled as ordered association
lists (Python dicts preserve insertion order); a compiled regex is
modelled as its abstract matcher `String → Bool`, standing for
`pattern.search(model)`. -/

/-- Python `str.lower()` (ASCII case folding, as in the catalogs). -/
def pyLower (s : String) : String := ⟨s.data.map Char.toLower⟩

/-- Python `str.strip()`: drop leading and trailing whitespace. -/
def pyStrip (s : String) : String :=
  ⟨((s.data.dropWhile Char.isWhitespace).reverse.dropWhile Char.isWhitespace).reverse⟩

/-- Bool test: does the second list start with the first? -/
def isPrefixL : List Char → List Char → Bool
  | [], _ => true
  | _ :: _, [] => false
  | a :: as, b :: bs => a == b && isPrefixL as bs

/-- Bool test: does `needle` occur contiguously inside `hay`
(Python's `needle in hay` on strings)? -/
def containsSub (needle : List Char) : List Char → Bool
  | [] => needle.isEmpty
  | c :: t => isPrefixL needle (c :: t) || containsSub needle t

/-- Python `needle in hay` for strings. -/
def strContains (hay needle : String) : Bool := containsSub needle.data hay.data

/-- One entry of `historical_overrides.json`: exact
manufacturer/model match with an inclusive year range. -/
structure Override where
  manufacturer : String
  model : String
  yearLo : ℤ
  yearHi : ℤ
  body_class : String

/-- One body class entry of `body_class_patterns.json`: its exact
model names and its compiled regex matchers. -/
structure PatternEntry where
  exact_matches : List String
  regex_matchers : List (String → Bool)

/-- The rule catalogs a `BodyClassClassifier` instance holds after
construction. -/
structure Catalog where
  overrides : List Override
  patterns : List (String × PatternEntry)
  manufacturer_defaults : List (String × List (String × String))

/-- `BodyClassClassifier._check_historical_override`: first override
with case-insensitive manufacturer and model equality whose year
range contains the year. -/
def check_historical_override (cat : Catalog) (manufacturer model : String)
    (year : ℤ) : Option String :=
  cat.overrides.findSome? fun o =>
    if pyLower o.manufacturer = pyLower manufacturer ∧
       pyLower o.model = pyLower model ∧
       o.yearLo ≤ year ∧ year ≤ o.yearHi
    then some o.body_class else none

/-- `BodyClassClassifier._check_exact_match`: first body class (in
catalog order) owning an exact-match name equal (case-insensitively)
to the model. -/
def check_exact_match (cat : Catalog) (model : String) : Option String :=
  cat.patterns.findSome? fun bc =>
    if bc.2.exact_matches.any fun em => pyLower model = pyLower em
    then some bc.1 else none

/-- `BodyClassClassifier._check_regex_match`: first body class (in
catalog order) one of whose compiled patterns matches the model. -/
def check_regex_match (cat : Catalog) (model : String) : Option String :=
  cat.patterns.findSome? fun bc =>
    if bc.2.regex_matchers.any fun p => p model then some bc.1 else none

/-- `BodyClassClassifier._check_manufacturer_default`: look the
manufacturer up case-sensitively; inside, exact key equality on the
model first, else the first catalog key contained (case-insensitively)
in the model string. -/
def check_manufacturer_default (cat : Catalog) (manufacturer model : String) :
    Option String :=
  match cat.manufacturer_defaults.lookup manufacturer with
  | none => none
  | some mfr_defaults =>
    match mfr_defaults.lookup model with
    | some bc => some bc
    | none =>
      mfr_defaults.findSome? fun kv =>
        if strContains (pyLower model) (pyLower kv.1) then some kv.2 else none

/-- Python `any(word in model_lower for word in kws)`. -/
def containsAnyKw (model_lower : String) (kws : List String) : Bool :=
  kws.any fun w => strContains model_lower w

/-- `BodyClassClassifier._fallback_classification`: pure heuristics on
(year, lowercased model). -/
def fallback_classification (manufacturer model : String) (year : ℤ) : String :=
  let model_lower := pyLower model
  if year < 1930 then
    if containsAnyKw model_lower ["roadster", "speedster", "racer"]
    then "Roadster" else "Touring Car"
  else if containsAnyKw model_lower ["truck", "pickup", "150", "250", "350"] then
    "Pickup"
  else if containsAnyKw model_lower ["van", "caravan", "voyager"] then
    "Van"
  else if containsAnyKw model_lower ["sport", "gt", "gto", "ss", "r/t"] then
    "Sports Car"
  else if containsAnyKw model_lower ["wagon", "estate"] then
    "Wagon"
  else
    "Sedan"

/-- The classifier's statistics counters. -/
structure Stats where
  total : ℕ
  historical_override : ℕ
  exact_match : ℕ
  regex_match : ℕ
  manufacturer_default : ℕ
  fallback : ℕ
  by_body_class : List (String × ℕ)
deriving DecidableEq, Repr

/-- The counters a fresh `BodyClassClassifier` starts with. -/
def initStats : Stats := ⟨0, 0, 0, 0, 0, 0, []⟩

/-- `BodyClassClassifier._update_body_class_stats`: insert the class
with count 0 if absent, then increment it. -/
def bumpBodyClass : List (String × ℕ) → String → List (String × ℕ)
  | [], bc => [(bc, 1)]
  | (k, n) :: rest, bc =>
    if k = bc then (k, n + 1) :: rest else (k, n) :: bumpBodyClass rest bc

/-- `BodyClassClassifier.classify`: increment the total, strip the
inputs, try the five tiers in order, and update the per-tier and
per-class counters of the winning tier.  Returns the
`(body_class, match_type)` pair and the updated statistics. -/
def classify (cat : Catalog) (st : Stats) (manufacturer model : String)
    (year : ℤ) : (String × String) × Stats :=
  let st := { st with total := st.total + 1 }
  let m := pyStrip manufacturer
  let mo := pyStrip model
  match check_historical_override cat m mo year with
  | some bc =>
    ((bc, "historical_override"),
     { st with historical_override := st.historical_override + 1,
               by_body_class := bumpBodyClass st.by_body_class bc })
  | none =>
  match check_exact_match cat mo with
  | some bc =>
    ((bc, "exact_match"),
     { st with exact_match := st.exact_match + 1,
               by_body_class := bumpBodyClass st.by_body_class bc })
  | none =>
  match check_regex_match cat mo with
  | some bc =>
    ((bc, "regex_match"),
     { st with regex_match := st.regex_match + 1,
               by_body_class := bumpBodyClass st.by_body_class bc })
  | none =>
  match check_manufacturer_default cat m mo with
  | some bc =>
    ((bc, "manufacturer_default"),
     { st with manufacturer_default := st.manufacturer_default + 1,
               by_body_class := bumpBodyClass st.by_body_class bc })
  | none =>
    ((fallback_classification m mo year, "fallback"),
     { st with fallback := st.fallback + 1,
               by_body_class :=
                 bumpBodyClass st.by_body_class (fallback_classification m mo year) })

/-- Run a sequence of classify calls against one classifier
instance, threading its statistics. -/
def applyCalls (cat : Catalog) : List (String × String × ℤ) → Stats → Stats
  | [], st => st
  | c :: rest, st => applyCalls cat rest (classify cat st c.1 c.2.1 c.2.2).2

/-- Sum of the five per-tier counters. -/
def tierSum (st : Stats) : ℕ :=
  st.historical_override + st.exact_match + st.regex_match +
    st.manufacturer_default + st.fallback

/-- Total count recorded for one body class (robust to duplicate
keys: sums all entries with that key). -/
def countOf : List (String × ℕ) → String → ℕ
  | [], _ => 0
  | kv :: rest, k => (if kv.1 = k then kv.2 else 0) + countOf rest k

/-- Sum of all per-body-class counts. -/
def bcSum (l : List (String × ℕ)) : ℕ := (l.map Prod.snd).sum

/-!
Embedding of `distribute_vins_across_vehicles`
(`generate_vin_data.py` lines 277-312).  A vehicle is represented by
its `instance_count`; a distribution entry is the pair
`(instance_count, vin_count)`.  Python's `list.sort(key=...,
reverse=True)` is a stable descending sort; stability determines the
output uniquely, so the structural stable insertion sort below
computes exactly the same list. -/

/-- Insert into a descending-sorted list, before the first entry of
smaller-or-equal key (stable for the element being inserted earlier
in the original order). -/
def insertDesc (x : ℕ × ℕ) : List (ℕ × ℕ) → List (ℕ × ℕ)
  | [] => [x]
  | y :: ys => if y.1 ≤ x.1 then x :: y :: ys else y :: insertDesc x ys

/-- Stable sort by instance count, descending. -/
def sortDesc (l : List (ℕ × ℕ)) : List (ℕ × ℕ) := l.foldr insertDesc []

/-- The configured minimum of 5 VINs per vehicle. -/
def min_vins_per_vehicle : ℕ := 5

/-- Line 289: `max(min_vins_per_vehicle, int(target_count * proportion))`
with `proportion = instance_count / total_instances`. -/
def initialAllocation (target total_instances ic : ℕ) : ℕ :=
  max min_vins_per_vehicle
    (pyInt ((target : ℚ) * ((ic : ℚ) / (total_instances : ℚ)))).toNat

/-- Lines 282-293: the proportional distribution before adjustment,
one `(instance_count, vin_count)` pair per vehicle in input order. -/
def initialDistribution (vehicles : List ℕ) (target_count : ℕ) : List (ℕ × ℕ) :=
  vehicles.map fun ic => (ic, initialAllocation target_count vehicles.sum ic)

/-- Update the `vin_count` at one position of the distribution. -/
def modifyIdx : List (ℕ × ℕ) → ℕ → (ℕ → ℕ) → List (ℕ × ℕ)
  | [], _, _ => []
  | x :: xs, 0, f => (x.1, f x.2) :: xs
  | x :: xs, j + 1, f => x :: modifyIdx xs j f

/-- Line 305: iteration `i` of the surplus loop adds one VIN at
position `i % n`. -/
def incStep (d : List (ℕ × ℕ)) (i : ℕ) : List (ℕ × ℕ) :=
  modifyIdx d (i % d.length) (· + 1)

/-- Lines 308-310: iteration `i` of the deficit loop removes one VIN
at position `i % n`, only when its count exceeds the minimum. -/
def decStep (d : List (ℕ × ℕ)) (i : ℕ) : List (ℕ × ℕ) :=
  modifyIdx d (i % d.length)
    (fun c => if min_vins_per_vehicle < c then c - 1 else c)

/-- `distribute_vins_across_vehicles(vehicles, target_count)`:
proportional allocation with minimum 5, then a cyclic adjustment pass
over the list sorted by instance count descending. -/
def distribute_vins_across_vehicles (vehicles : List ℕ) (target_count : ℕ) :
    List (ℕ × ℕ) :=
  let dist := initialDistribution vehicles target_count
  let current := (dist.map Prod.snd).sum
  if current = target_count then dist
  else
    let sorted := sortDesc dist
    if current < target_count then
      (List.range (target_count - current)).foldl incStep sorted
    else
      (List.range (current - target_count)).foldl decStep sorted

/-- `modifyIdx` preserves the length of the distribution. -/
theorem modifyIdx_length (d : List (ℕ × ℕ)) (j : ℕ) (f : ℕ → ℕ) :
    (modifyIdx d j f).length = d.length := by
  induction d generalizing j with
  | nil => rfl
  | cons x xs ih =>
    cases j with
    | zero => rfl
    | succ j => simp [modifyIdx, ih]

/-- Incrementing one in-range position adds one to the total. -/
theorem modifyIdx_sum_inc (d : List (ℕ × ℕ)) (j : ℕ) (hj : j < d.length) :
    ((modifyIdx d j (· + 1)).map Prod.snd).sum = (d.map Prod.snd).sum + 1 := by
  induction d generalizing j with
  | nil => exact absurd hj (by simp)
  | cons x xs ih =>
    cases j with
    | zero => simp [modifyIdx]; omega
    | succ j =>
      have : j < xs.length := by simpa using hj
      simp [modifyIdx, ih j this]
      omega

/-- A pointwise update that respects the minimum keeps every count at
or above the minimum. -/
theorem modifyIdx_min (d : List (ℕ × ℕ)) (j : ℕ) (f : ℕ → ℕ)
    (hf : ∀ c, min_vins_per_vehicle ≤ c → min_vins_per_vehicle ≤ f c)
    (hd : ∀ p ∈ d, min_vins_per_vehicle ≤ p.2) :
    ∀ p ∈ modifyIdx d j f, min_vins_per_vehicle ≤ p.2 := by
  induction d generalizing j with
  | nil => intro p hp; exact absurd hp (by simp [modifyIdx])
  | cons x xs ih =>
    cases j with
    | zero =>
      intro p hp
      rcases List.mem_cons.mp hp with h | h
      · subst h
        exact hf x.2 (hd x (List.mem_cons_self x xs))
      · exact hd p (List.mem_cons_of_mem x h)
    | succ j =>
      intro p hp
      rcases List.mem_cons.mp hp with h | h
      · subst h
        exact hd p (List.mem_cons_self p xs)
      · exact ih j (fun q hq => hd q (List.mem_cons_of_mem x hq)) p h

/-- Stable insertion permutes the element onto the list. -/
theorem insertDesc_perm (x : ℕ × ℕ) (l : List (ℕ × ℕ)) :
    (insertDesc x l).Perm (x :: l) := by
  induction l with
  | nil => exact List.Perm.refl _
  | cons y ys ih =>
    rw [insertDesc]
    by_cases h : y.1 ≤ x.1
    · rw [if_pos h]
    · rw [if_neg h]
      exact (List.Perm.cons y ih).trans (List.Perm.swap x y ys)

/-- The descending sort is a permutation of its input. -/
theorem sortDesc_perm (l : List (ℕ × ℕ)) : (sortDesc l).Perm l := by
  induction l with
  | nil => exact List.Perm.refl _
  | cons x xs ih =>
    exact (insertDesc_perm x (sortDesc xs)).trans (List.Perm.cons x ih)

/-- One surplus-loop step preserves the length. -/
theorem incStep_length (d : List (ℕ × ℕ)) (i : ℕ) :
    (incStep d i).length = d.length := modifyIdx_length d _ _

/-- The whole surplus loop preserves the length. -/
theorem foldl_incStep_length (k : ℕ) (d : List (ℕ × ℕ)) :
    ((List.range k).foldl incStep d).length = d.length := by
  induction k with
  | zero => rfl
  | succ k ih =>
    rw [List.range_succ, List.foldl_append]
    simp only [List.foldl_cons, List.foldl_nil]
    rw [incStep_length, ih]

/-- `k` surplus-loop iterations add exactly `k` VINs. -/
theorem foldl_incStep_sum (k : ℕ) (d : List (ℕ × ℕ)) (hd : d ≠ []) :
    (((List.range k).foldl incStep d).map Prod.snd).sum
      = (d.map Prod.snd).sum + k := by
  induction k with
  | zero => rfl
  | succ k ih =>
    rw [List.range_succ, List.foldl_append]
    simp only [List.foldl_cons, List.foldl_nil]
    have hlen : ((List.range k).foldl incStep d).length = d.length :=
      foldl_incStep_length k d
    have hpos : 0 < d.length := List.length_pos.mpr hd
    rw [incStep, modifyIdx_sum_inc _ _ (by rw [hlen]; exact Nat.mod_lt _ (hlen ▸ hpos)),
      ih]
    omega

/-- The surplus loop never drops a count below the minimum. -/
theorem foldl_incStep_min (k : ℕ) (d : List (ℕ × ℕ))
    (hd : ∀ p ∈ d, min_vins_per_vehicle ≤ p.2) :
    ∀ p ∈ (List.range k).foldl incStep d, min_vins_per_vehicle ≤ p.2 := by
  induction k with
  | zero => exact hd
  | succ k ih =>
    rw [List.range_succ, List.foldl_append]
    simp only [List.foldl_cons, List.foldl_nil]
    exact modifyIdx_min _ _ _ (fun c hc => Nat.le_succ_of_le hc) ih

/-- The deficit loop is guarded and never drops a count below the
minimum. -/
theorem foldl_decStep_min (k : ℕ) (d : List (ℕ × ℕ))
    (hd : ∀ p ∈ d, min_vins_per_vehicle ≤ p.2) :
    ∀ p ∈ (List.range k).foldl decStep d, min_vins_per_vehicle ≤ p.2 := by
  induction k with
  | zero => exact hd
  | succ k ih =>
    rw [List.range_succ, List.foldl_append]
    simp only [List.foldl_cons, List.foldl_nil]
    refine modifyIdx_min _ _ _ (fun c hc => ?_) ih
    by_cases h : min_vins_per_vehicle < c
    · rw [if_pos h]; omega
    · rw [if_neg h]; exact hc

/-- Every pre-adjustment allocation is at least the minimum. -/
theorem initialDistribution_min (vehicles : List ℕ) (target : ℕ) :
    ∀ p ∈ initialDistribution vehicles target, min_vins_per_vehicle ≤ p.2 := by
  intro p hp
  obtain ⟨ic, -, rfl⟩ := List.mem_map.mp hp
  exact le_max_left _ _

/-- C2 counterexample: two vehicles with instance count 1 and target
1 (non-empty list, positive counts, positive target) are each bumped
to the minimum of 5, the deficit loop cannot reduce them, and the
returned allocations sum to 10, not 1. -/
theorem distribute_vins_sum_not_target :
    ([1, 1] : List ℕ) ≠ [] ∧ (∀ ic ∈ ([1, 1] : List ℕ), 0 < ic) ∧ (0 : ℕ) < 1 ∧
    ((distribute_vins_across_vehicles [1, 1] 1).map Prod.snd).sum = 10 ∧
    ((distribute_vins_across_vehicles [1, 1] 1).map Prod.snd).sum ≠ 1 :=
  ⟨by decide, by decide, by decide, by decide, by decide⟩

/-- C2 amended: every returned allocation is at least the minimum of
5, and the allocations sum exactly to the target whenever the
pre-adjustment proportional total does not exceed the target (when
the minimum bumps push that total above the target, the deficit loop
cannot reduce vehicles already at the minimum and the sum may stay
above the target). -/
theorem distribute_vins_allocation (vehicles : List ℕ) (target : ℕ)
    (hne : vehicles ≠ []) (hpos : ∀ ic ∈ vehicles, 0 < ic) (ht : 0 < target) :
    (∀ p ∈ distribute_vins_across_vehicles vehicles target,
      min_vins_per_vehicle ≤ p.2) ∧
    (((initialDistribution vehicles target).map Prod.snd).sum ≤ target →
      ((distribute_vins_across_vehicles vehicles target).map Prod.snd).sum
        = target) := by
  have hDmin := initialDistribution_min vehicles target
  have hSmin : ∀ p ∈ sortDesc (initialDistribution vehicles target),
      min_vins_per_vehicle ≤ p.2 :=
    fun p hp => hDmin p ((sortDesc_perm _).subset hp)
  constructor
  · simp only [distribute_vins_across_vehicles]
    split_ifs with h1 h2
    · exact hDmin
    · exact foldl_incStep_min _ _ hSmin
    · exact foldl_decStep_min _ _ hSmin
  · intro hle
    simp only [distribute_vins_across_vehicles]
    by_cases h1 : ((initialDistribution vehicles target).map Prod.snd).sum = target
    · rw [if_pos h1]
      exact h1
    · rw [if_neg h1, if_pos (lt_of_le_of_ne hle h1)]
      have hlen : (sortDesc (initialDistribution vehicles target)).length
          = vehicles.length := by
        rw [(sortDesc_perm _).length_eq, initialDistribution, List.length_map]
      have hsne : sortDesc (initialDistribution vehicles target) ≠ [] := by
        intro hc
        apply hne
        have := congrArg List.length hc
        rw [hlen] at this
        exact List.length_eq_zero.mp this
      rw [foldl_incStep_sum _ _ hsne,
        ((sortDesc_perm (initialDistribution vehicles target)).map Prod.snd).sum_eq]
      omega

/-- Witness for `distribute_vins_allocation`: two vehicles of count 1
and target 21 (pre-adjustment total 20, surplus 1). -/
theorem distribute_vins_allocation_witness :
    ([1, 1] : List ℕ) ≠ [] ∧ (∀ ic ∈ ([1, 1] : List ℕ), 0 < ic) ∧ (0 : ℕ) < 21 ∧
    ((∀ p ∈ distribute_vins_across_vehicles [1, 1] 21,
       min_vins_per_vehicle ≤ p.2) ∧
     (((initialDistribution [1, 1] 21).map Prod.snd).sum ≤ 21 →
       ((distribute_vins_across_vehicles [1, 1] 21).map Prod.snd).sum = 21)) :=
  ⟨by decide, by decide, by decide,
   distribute_vins_allocation [1, 1] 21 (by decide) (by decide) (by decide)⟩

/-- The five match types a classification can report. -/
inductive MatchType where
  | historical_override
  | exact_match
  | regex_match
  | manufacturer_default
  | fallback
deriving DecidableEq

/-- The per-tier counter of the statistics selected by match type. -/
def tierCount (st : Stats) : MatchType → ℕ
  | .historical_override => st.historical_override
  | .exact_match => st.exact_match
  | .regex_match => st.regex_match
  | .manufacturer_default => st.manufacturer_default
  | .fallback => st.fallback

/-- `_update_body_class_stats` adds one to the bumped class and
leaves every other class count unchanged. -/
theorem countOf_bumpBodyClass (l : List (String × ℕ)) (bc k : String) :
    countOf (bumpBodyClass l bc) k = countOf l k + (if k = bc then 1 else 0) := by
  induction l with
  | nil =>
    simp only [bumpBodyClass, countOf]
    by_cases h : k = bc
    · subst h
      simp
    · have h' : ¬ bc = k := fun hh => h hh.symm
      simp [h, h']
  | cons kv rest ih =>
    obtain ⟨k0, n0⟩ := kv
    by_cases h0 : k0 = bc
    · subst h0
      rw [bumpBodyClass, if_pos rfl]
      simp only [countOf]
      by_cases hk : k0 = k
      · subst hk
        simp
        try omega
      · have hk' : ¬ k = k0 := fun hh => hk hh.symm
        simp [hk, hk']
    · rw [bumpBodyClass, if_neg h0]
      simp only [countOf]
      rw [ih]
      omega

/-- `_update_body_class_stats` adds exactly one to the total of all
class counts. -/
theorem bcSum_bumpBodyClass (l : List (String × ℕ)) (bc : String) :
    bcSum (bumpBodyClass l bc) = bcSum l + 1 := by
  induction l with
  | nil => rfl
  | cons kv rest ih =>
    obtain ⟨k0, n0⟩ := kv
    by_cases h0 : k0 = bc
    · rw [bumpBodyClass, if_pos h0]
      simp only [bcSum, List.map_cons, List.sum_cons]
      omega
    · rw [bumpBodyClass, if_neg h0]
      simp only [bcSum, List.map_cons, List.sum_cons] at *
      omega

/-- One classify call increments the total by one, exactly one tier
counter by one, exactly one body-class count by one, and hence the
tier-counter sum and the body-class count sum each by one. -/
theorem classify_stats_step (cat : Catalog) (st : Stats) (m mo : String) (y : ℤ) :
    (classify cat st m mo y).2.total = st.total + 1 ∧
    (∃ t : MatchType, ∀ u : MatchType,
      tierCount (classify cat st m mo y).2 u
        = tierCount st u + (if u = t then 1 else 0)) ∧
    (∃ b : String, ∀ k : String,
      countOf (classify cat st m mo y).2.by_body_class k
        = countOf st.by_body_class k + (if k = b then 1 else 0)) ∧
    tierSum (classify cat st m mo y).2 = tierSum st + 1 ∧
    bcSum (classify cat st m mo y).2.by_body_class = bcSum st.by_body_class + 1 := by
  cases hov : check_historical_override cat (pyStrip m) (pyStrip mo) y with
  | some bc =>
    refine ⟨by simp [classify, hov], ⟨.historical_override, fun u => ?_⟩,
      ⟨bc, fun k => ?_⟩, by simp [classify, hov, tierSum]; omega,
      by simp [classify, hov, bcSum_bumpBodyClass]⟩
    · cases u <;> simp [classify, hov, tierCount]
    · simp [classify, hov, countOf_bumpBodyClass]
  | none => cases hex : check_exact_match cat (pyStrip mo) with
    | some bc =>
      refine ⟨by simp [classify, hov, hex], ⟨.exact_match, fun u => ?_⟩,
        ⟨bc, fun k => ?_⟩, by simp [classify, hov, hex, tierSum]; omega,
        by simp [classify, hov, hex, bcSum_bumpBodyClass]⟩
      · cases u <;> simp [classify, hov, hex, tierCount]
      · simp [classify, hov, hex, countOf_bumpBodyClass]
    | none => cases hre : check_regex_match cat (pyStrip mo) with
      | some bc =>
        refine ⟨by simp [classify, hov, hex, hre], ⟨.regex_match, fun u => ?_⟩,
          ⟨bc, fun k => ?_⟩, by simp [classify, hov, hex, hre, tierSum]; omega,
          by simp [classify, hov, hex, hre, bcSum_bumpBodyClass]⟩
        · cases u <;> simp [classify, hov, hex, hre, tierCount]
        · simp [classify, hov, hex, hre, countOf_bumpBodyClass]
      | none => cases hmd : check_manufacturer_default cat (pyStrip m) (pyStrip mo) with
        | some bc =>
          refine ⟨by simp [classify, hov, hex, hre, hmd],
            ⟨.manufacturer_default, fun u => ?_⟩,
            ⟨bc, fun k => ?_⟩, by simp [classify, hov, hex, hre, hmd, tierSum]; omega,
            by simp [classify, hov, hex, hre, hmd, bcSum_bumpBodyClass]⟩
          · cases u <;> simp [classify, hov, hex, hre, hmd, tierCount]
          · simp [classify, hov, hex, hre, hmd, countOf_bumpBodyClass]
        | none =>
          refine ⟨by simp [classify, hov, hex, hre, hmd], ⟨.fallback, fun u => ?_⟩,
            ⟨fallback_classification (pyStrip m) (pyStrip mo) y, fun k => ?_⟩,
            by simp [classify, hov, hex, hre, hmd, tierSum]; omega,
            by simp [classify, hov, hex, hre, hmd, bcSum_bumpBodyClass]⟩
          · cases u <;> simp [classify, hov, hex, hre, hmd, tierCount]
          · simp [classify, hov, hex, hre, hmd, countOf_bumpBodyClass]

/-- The statistics invariant: the total equals the sum of the five
tier counters and the sum of the body-class counts. -/
def statsInv (st : Stats) : Prop :=
  st.total = tierSum st ∧ st.total = bcSum st.by_body_class

/-- One classify call preserves the statistics invariant. -/
theorem statsInv_classify (cat : Catalog) (st : Stats) (m mo : String) (y : ℤ)
    (h : statsInv st) : statsInv (classify cat st m mo y).2 := by
  obtain ⟨h1, -, -, h4, h5⟩ := classify_stats_step cat st m mo y
  exact ⟨by rw [h1, h4, h.1], by rw [h1, h5, h.2]⟩

/-- Any sequence of classify calls preserves the statistics
invariant. -/
theorem statsInv_applyCalls (cat : Catalog) (calls : List (String × String × ℤ)) :
    ∀ st : Stats, statsInv st → statsInv (applyCalls cat calls st) := by
  induction calls with
  | nil => exact fun st h => h
  | cons c rest ih =>
    exact fun st h => ih _ (statsInv_classify cat st c.1 c.2.1 c.2.2 h)

/-- C10: after any sequence of classify calls from a fresh
classifier, the total equals the sum of the five match-type counters
and the sum of all body-class counts; moreover each call increments
the total by one, exactly one match-type counter by one, and exactly
one body-class count by one. -/
theorem classify_statistics_invariant (cat : Catalog)
    (calls : List (String × String × ℤ)) (st : Stats) (m mo : String) (y : ℤ) :
    (applyCalls cat calls initStats).total = tierSum (applyCalls cat calls initStats) ∧
    (applyCalls cat calls initStats).total
      = bcSum (applyCalls cat calls initStats).by_body_class ∧
    (classify cat st m mo y).2.total = st.total + 1 ∧
    (∃ t : MatchType, ∀ u : MatchType,
      tierCount (classify cat st m mo y).2 u
        = tierCount st u + (if u = t then 1 else 0)) ∧
    (∃ b : String, ∀ k : String,
      countOf (classify cat st m mo y).2.by_body_class k
        = countOf st.by_body_class k + (if k = b then 1 else 0)) := by
  have hinit : statsInv initStats := ⟨rfl, rfl⟩
  obtain ⟨ha, hb⟩ := statsInv_applyCalls cat calls initStats hinit
  obtain ⟨h1, h2, h3, -, -⟩ := classify_stats_step cat st m mo y
  exact ⟨ha, hb, h1, h2, h3⟩

/-- C3: with the manufacturer-default table mapping "F-Series" to
"Pickup" under "Ford" and no other rule, the default tier does NOT
match "F-150" (the code tests whether the catalog key occurs inside
the model string, and "f-series" does not occur in "f-150"), so
classify returns "Pickup" via the fallback keyword "150" with
match_type "fallback" - contradicting the documented intent that
"F-150" matches "F-Series" via the manufacturer-default tier. -/
theorem classify_f150_manufacturer_default_misses :
    check_manufacturer_default
        ⟨[], [], [("Ford", [("F-Series", "Pickup")])]⟩ "Ford" "F-150" = none ∧
    (classify ⟨[], [], [("Ford", [("F-Series", "Pickup")])]⟩ initStats
        "Ford" "F-150" 2020).1 = ("Pickup", "fallback") :=
  ⟨by decide, by decide⟩

/-- C8: with no matching rule in any data-driven tier and a year
before 1930, classify returns "Roadster" exactly when the stripped,
lowercased model contains "roadster", "speedster" or "racer", and
"Touring Car" otherwise, always with match_type "fallback". -/
theorem classify_fallback_pre_1930 (cat : Catalog) (st : Stats) (m mo : String)
    (y : ℤ)
    (h1 : check_historical_override cat (pyStrip m) (pyStrip mo) y = none)
    (h2 : check_exact_match cat (pyStrip mo) = none)
    (h3 : check_regex_match cat (pyStrip mo) = none)
    (h4 : check_manufacturer_default cat (pyStrip m) (pyStrip mo) = none)
    (h5 : y < 1930) :
    (classify cat st m mo y).1
      = ((if containsAnyKw (pyLower (pyStrip mo)) ["roadster", "speedster", "racer"]
          then "Roadster" else "Touring Car"), "fallback") ∧
    ((classify cat st m mo y).1.1 = "Roadster"
      ↔ containsAnyKw (pyLower (pyStrip mo)) ["roadster", "speedster", "racer"]
          = true) := by
  have hc : (classify cat st m mo y).1
      = (fallback_classification (pyStrip m) (pyStrip mo) y, "fallback") := by
    simp only [classify, h1, h2, h3, h4]
  have hf : fallback_classification (pyStrip m) (pyStrip mo) y
      = if containsAnyKw (pyLower (pyStrip mo)) ["roadster", "speedster", "racer"]
        then "Roadster" else "Touring Car" := by
    rw [fallback_classification, if_pos h5]
  refine ⟨by rw [hc, hf], ?_⟩
  rw [hc, hf]
  by_cases hkw : containsAnyKw (pyLower (pyStrip mo)) ["roadster", "speedster", "racer"]
      = true
  · simp [hkw]
  · simp [hkw]

/-- Witness for `classify_fallback_pre_1930`: the empty catalog,
"Unknown Co" / "Thing" / 1925 yields ("Touring Car", "fallback"). -/
theorem classify_fallback_pre_1930_witness :
    check_historical_override ⟨[], [], []⟩ (pyStrip "Unknown Co") (pyStrip "Thing")
        1925 = none ∧
    check_exact_match ⟨[], [], []⟩ (pyStrip "Thing") = none ∧
    check_regex_match ⟨[], [], []⟩ (pyStrip "Thing") = none ∧
    check_manufacturer_default ⟨[], [], []⟩ (pyStrip "Unknown Co") (pyStrip "Thing")
        = none ∧
    (1925 : ℤ) < 1930 ∧
    ((classify ⟨[], [], []⟩ initStats "Unknown Co" "Thing" 1925).1
      = ((if containsAnyKw (pyLower (pyStrip "Thing"))
              ["roadster", "speedster", "racer"]
          then "Roadster" else "Touring Car"), "fallback") ∧
     ((classify ⟨[], [], []⟩ initStats "Unknown Co" "Thing" 1925).1.1 = "Roadster"
      ↔ containsAnyKw (pyLower (pyStrip "Thing")) ["roadster", "speedster", "racer"]
          = true)) :=
  ⟨by decide, by decide, by decide, by decide, by decide,
   classify_fallback_pre_1930 ⟨[], [], []⟩ initStats "Unknown Co" "Thing" 1925
     (by decide) (by decide) (by decide) (by decide) (by decide)⟩

/-- C9: classify always returns a (body_class, match_type) pair whose
match type is one of the five tiers, and when no data-driven tier
matches, evaluation proceeds tier by tier down to the fallback. -/
theorem classify_total_and_cascade (cat : Catalog) (st : Stats) (m mo : String)
    (y : ℤ) (hm : m ≠ "") (hmo : mo ≠ "") :
    (∃ bc mt, (classify cat st m mo y).1 = (bc, mt) ∧
      mt ∈ ["historical_override", "exact_match", "regex_match",
            "manufacturer_default", "fallback"]) ∧
    (check_historical_override cat (pyStrip m) (pyStrip mo) y = none →
      check_exact_match cat (pyStrip mo) = none →
      check_regex_match cat (pyStrip mo) = none →
      check_manufacturer_default cat (pyStrip m) (pyStrip mo) = none →
      (classify cat st m mo y).1
        = (fallback_classification (pyStrip m) (pyStrip mo) y, "fallback")) := by
  constructor
  · cases hov : check_historical_override cat (pyStrip m) (pyStrip mo) y with
    | some bc => exact ⟨bc, "historical_override", by simp [classify, hov], by simp⟩
    | none => cases hex : check_exact_match cat (pyStrip mo) with
      | some bc => exact ⟨bc, "exact_match", by simp [classify, hov, hex], by simp⟩
      | none => cases hre : check_regex_match cat (pyStrip mo) with
        | some bc => exact ⟨bc, "regex_match", by simp [classify, hov, hex, hre], by simp⟩
        | none => cases hmd : check_manufacturer_default cat (pyStrip m) (pyStrip mo) with
          | some bc =>
            exact ⟨bc, "manufacturer_default",
              by simp [classify, hov, hex, hre, hmd], by simp⟩
          | none =>
            exact ⟨fallback_classification (pyStrip m) (pyStrip mo) y, "fallback",
              by simp [classify, hov, hex, hre, hmd], by simp⟩
  · intro h1 h2 h3 h4
    simp only [classify, h1, h2, h3, h4]

/-- Witness for `classify_total_and_cascade`: the empty catalog with
"Ford" / "Mustang" / 1967. -/
theorem classify_total_and_cascade_witness :
    ("Ford" : String) ≠ "" ∧ ("Mustang" : String) ≠ "" ∧
    ((∃ bc mt, (classify ⟨[], [], []⟩ initStats "Ford" "Mustang" 1967).1 = (bc, mt) ∧
      mt ∈ ["historical_override", "exact_match", "regex_match",
            "manufacturer_default", "fallback"]) ∧
    (check_historical_override ⟨[], [], []⟩ (pyStrip "Ford") (pyStrip "Mustang") 1967
        = none →
      check_exact_match ⟨[], [], []⟩ (pyStrip "Mustang") = none →
      check_regex_match ⟨[], [], []⟩ (pyStrip "Mustang") = none →
      check_manufacturer_default ⟨[], [], []⟩ (pyStrip "Ford") (pyStrip "Mustang")
        = none →
      (classify ⟨[], [], []⟩ initStats "Ford" "Mustang" 1967).1
        = (fallback_classification (pyStrip "Ford") (pyStrip "Mustang") 1967,
           "fallback"))) :=
  ⟨by decide, by decide,
   classify_total_and_cascade ⟨[], [], []⟩ initStats "Ford" "Mustang" 1967
     (by decide) (by decide)⟩

end Autos
